import Mathlib

/-!
Verification of the schema-to-widget mapping engine of `streamlit-pydantic`
(`src/streamlit_pydantic/schema_utils.py` and `src/streamlit_pydantic/ui_renderer.py`).

Python schema nodes are dictionaries; we embed them as a JSON-like value
`JVal`, with a top-level schema node / references table typed as a string-keyed
association structure `JObj` (mirroring the `Dict` signatures of the source).
Python exceptions are modelled with `Except String`: a raised exception is
`Except.error msg`; code that the source wraps in `try/except` is modelled by
matching on the error case.  Python truthiness (`if property.get("enum"):`) is
modelled by `JVal.isTruthy`, `x is None` by `pyIsNone` (a missing key and a
stored JSON `null` both read back as Python `None`).  Numbers are modelled as
integers (`Int`); float carriers are outside the model and are never exercised
by the theorems below.
-/

mutual
/-- Embedded Python/JSON value: the payloads stored in schema-node
dictionaries and in the path-keyed session state. -/
inductive JVal where
  | null : JVal
  | bool (b : Bool) : JVal
  | num (n : Int) : JVal
  | str (s : String) : JVal
  | arr (xs : JArr) : JVal
  | obj (fields : JFields) : JVal
deriving DecidableEq, Repr
/-- A Python list of embedded values. -/
inductive JArr where
  | nil : JArr
  | cons (hd : JVal) (tl : JArr) : JArr
deriving DecidableEq, Repr
/-- A Python dictionary with string keys, in insertion order. -/
inductive JFields where
  | nil : JFields
  | cons (k : String) (v : JVal) (tl : JFields) : JFields
deriving DecidableEq, Repr
end

/-- A Python dict with string keys, as used for schema nodes
(`property: Dict`) and the references table. -/
abbrev JObj := JFields

/-- Builds an embedded dict from a Lean association list (concrete test
values are written through this). -/
def JFields.ofList : List (String × JVal) → JFields
  | [] => .nil
  | (k, v) :: rest => .cons k v (JFields.ofList rest)

/-- Builds an embedded list from a Lean list. -/
def JArr.ofList : List JVal → JArr
  | [] => .nil
  | v :: rest => .cons v (JArr.ofList rest)

/-- Views an embedded Python list as a Lean list (used where the source
iterates over a list it has already obtained). -/
def JArr.toList : JArr → List JVal
  | .nil => []
  | .cons v rest => v :: rest.toList

/-- Emptiness of an embedded list. -/
def JArr.isEmpty : JArr → Bool
  | .nil => true
  | .cons _ _ => false

/-- Emptiness of an embedded dict. -/
def JFields.isEmpty : JFields → Bool
  | .nil => true
  | .cons _ _ _ => false

/-- Python `d.get(k)` on a string-keyed dict: the stored value, or Python
`None` (here `Option.none`) when the key is missing. -/
def plookup : JObj → String → Option JVal
  | .nil, _ => none
  | .cons k' v rest, k => if k' = k then some v else plookup rest k

/-- Python dict item assignment `d[k] = v`: replaces the value in place when
the key is present, otherwise appends the new key at the end (Python dicts
preserve insertion order). -/
def setKey : JObj → String → JVal → JObj
  | .nil, k, v => .cons k v .nil
  | .cons k' v' rest, k, v =>
    if k' = k then .cons k v rest else .cons k' v' (setKey rest k v)

/-- Python truthiness of a value (`if x:`): `None`, `False`, `0`, `""`, `[]`
and `{}` are falsy, everything else truthy. -/
def JVal.isTruthy : JVal → Bool
  | .null => false
  | .bool b => b
  | .num n => n != 0
  | .str s => !s.isEmpty
  | .arr xs => !xs.isEmpty
  | .obj o => !o.isEmpty

/-- Truthiness of the result of a `.get` call: a missing key reads back as
Python `None`, which is falsy. -/
def optTruthy : Option JVal → Bool
  | none => false
  | some v => v.isTruthy

/-- Python `x is None` for the result of a `.get` call: true for a missing
key and for a stored JSON `null`. -/
def pyIsNone : Option JVal → Bool
  | none => true
  | some .null => true
  | some _ => false

/-- Python indexing `x[k]` with a string key: a `KeyError` on a dict without
the key, a `TypeError` on any non-dict carrier (string/list indices must be
integers; numbers are not subscriptable). -/
def pyIdx (x : JVal) (k : String) : Except String JVal :=
  match x with
  | .obj o =>
    match plookup o k with
    | some v => .ok v
    | none => .error ("KeyError: " ++ k)
  | _ => .error "TypeError: not subscriptable with str key"

/-- Occurrence of `t` as a contiguous run inside `s` (Python substring
containment; the empty string occurs everywhere). -/
def substrB (t : List Char) : List Char → Bool
  | [] => t.isEmpty
  | c :: cs => t.isPrefixOf (c :: cs) || substrB t cs

/-- Python membership `a in b`: key membership on dicts (non-string keys are
simply absent from string-keyed dicts), element membership on lists,
substring containment on strings, and a `TypeError` on other carriers. -/
def pyInVal (a b : JVal) : Except String Bool :=
  match b with
  | .obj o =>
    match a with
    | .str k => .ok (plookup o k).isSome
    | _ => .ok false
  | .arr xs => .ok (xs.toList.contains a)
  | .str s =>
    match a with
    | .str t => .ok (substrB t.toList s.toList)
    | _ => .error "TypeError: in requires string as left operand"
  | _ => .error "TypeError: argument not iterable"

/-- Python `x[0]` (integer index 0): the first element of a list, the first
character of a non-empty string, an `IndexError` on empty carriers and a
`KeyError`/`TypeError` on dicts and scalars. -/
def pyIdx0 (x : JVal) : Except String JVal :=
  match x with
  | .arr .nil => .error "IndexError: list index out of range"
  | .arr (.cons v _) => .ok v
  | .str s =>
    match s.toList with
    | [] => .error "IndexError: string index out of range"
    | c :: _ => .ok (.str (String.mk [c]))
  | .obj _ => .error "KeyError: 0"
  | _ => .error "TypeError: not subscriptable"

/-- Python `s.split(sep)` for a one-character separator, via the character
list (CPython keeps empty segments: `"".split(".") == [""]`). -/
def pySplit (sep : Char) (s : String) : List String :=
  (s.toList.splitOn sep).map (fun cs => String.mk cs)

/-! ## schema_utils.py -/

/-- Source: `schema_utils.resolve_reference`.  Looks the last `/`-segment of
the reference string up in the references table; a missing definition raises
a `KeyError`, modelled as `none` (every caller either catches it or lets it
propagate, which we model at the call sites). -/
def resolve_reference (reference : String) (references : JObj) : Option JVal :=
  plookup references ((pySplit '/' reference).getLastD "")

/-- Source: `schema_utils.get_single_reference_item`.  The reference is the
node's own `$ref`, or, when that reads back as `None`, `allOf[0]["$ref"]`;
`none` models any raised `KeyError`/`IndexError`/`TypeError`/`AttributeError`
along the way (a non-string `$ref` would fail inside `resolve_reference`'s
`.split`). -/
def get_single_reference_item (property : JObj) (references : JObj) : Option JVal :=
  match plookup property "$ref" with
  | some (.str r) => resolve_reference r references
  | some .null =>
    match plookup property "allOf" with
    | some (.arr (.cons first _)) =>
      match pyIdx first "$ref" with
      | .ok (.str r) => resolve_reference r references
      | _ => none
    | _ => none
  | some _ => none
  | none =>
    match plookup property "allOf" with
    | some (.arr (.cons first _)) =>
      match pyIdx first "$ref" with
      | .ok (.str r) => resolve_reference r references
      | _ => none
    | _ => none

/-- Source: `schema_utils.get_property_items`.  `property["items"]` must
exist (`KeyError`), and be a list (whose first element is taken — an
`IndexError` when empty) or a dict; any other carrier is a `TypeError`.
The distinct error strings matter: `is_property_list_and_object` catches
only `KeyError` and `TypeError`. -/
def get_property_items (property : JObj) : Except String JVal :=
  match plookup property "items" with
  | none => .error "KeyError"
  | some (.arr .nil) => .error "IndexError"
  | some (.arr (.cons x _)) => .ok x
  | some (.obj o) => .ok (.obj o)
  | some _ => .error "TypeError"

/-- Source: `schema_utils.is_single_string_property`. -/
def is_single_string_property (property : JObj) : Bool :=
  plookup property "type" == some (.str "string")

/-- Source: `schema_utils.is_single_color_property`. -/
def is_single_color_property (property : JObj) : Bool :=
  plookup property "type" == some (.str "string")
    && plookup property "format" == some (.str "color")

/-- Source: `schema_utils.is_single_datetime_property`. -/
def is_single_datetime_property (property : JObj) : Bool :=
  plookup property "type" == some (.str "string")
    && ((plookup property "format" == some (.str "date-time"))
        || (plookup property "format" == some (.str "time"))
        || (plookup property "format" == some (.str "date")))

/-- Source: `schema_utils.is_single_boolean_property`. -/
def is_single_boolean_property (property : JObj) : Bool :=
  plookup property "type" == some (.str "boolean")

/-- Source: `schema_utils.is_single_number_property`. -/
def is_single_number_property (property : JObj) : Bool :=
  plookup property "type" == some (.str "integer")
    || plookup property "type" == some (.str "number")

/-- Source: `schema_utils.is_single_file_property`. -/
def is_single_file_property (property : JObj) : Bool :=
  plookup property "type" == some (.str "string")
    && plookup property "format" == some (.str "byte")

/-- Source: `schema_utils.is_multi_enum_property`.  Requires `type ==
"array"` and `uniqueItems is True`; then probes the literal path
`get_property_items(property)["enum"]` and, failing that, the reference path
`resolve_reference(get_property_items(property)["$ref"], references)["enum"]`.
Both probes sit in `try/except` blocks in the source: any exception makes the
probe fail, so a dangling reference yields `false` rather than an error. -/
def is_multi_enum_property (property : JObj) (references : JObj) : Bool :=
  if plookup property "type" != some (.str "array") then false
  else if plookup property "uniqueItems" != some (.bool true) then false
  else
    match (get_property_items property).bind (fun it => pyIdx it "enum") with
    | .ok _ => true
    | .error _ =>
      match (get_property_items property).bind (fun it => pyIdx it "$ref") with
      | .ok (.str r) =>
        match (resolve_reference r references).map (fun ref => pyIdx ref "enum") with
        | some (.ok _) => true
        | _ => false
      | _ => false

/-- Source: `schema_utils.is_single_enum_property`.  A truthy literal `enum`
short-circuits to `true` without touching the references table; otherwise
the probe `get_single_reference_item(property, references)["enum"]` runs in
a `try/except` that converts any exception — in particular a dangling
reference — into `false`. -/
def is_single_enum_property (property : JObj) (references : JObj) : Bool :=
  if optTruthy (plookup property "enum") then true
  else
    match (get_single_reference_item property references).map (fun ref => pyIdx ref "enum") with
    | some (.ok _) => true
    | _ => false

/-- Source: `schema_utils.is_single_dict_property`: `type == "object"` and
an `additionalProperties` key (membership, regardless of its value). -/
def is_single_dict_property (property : JObj) : Bool :=
  plookup property "type" == some (.str "object")
    && (plookup property "additionalProperties").isSome

/-- Source: `schema_utils.is_single_reference`: `type` must read back as
`None` and `$ref` must be truthy. -/
def is_single_reference (property : JObj) : Bool :=
  if !pyIsNone (plookup property "type") then false
  else optTruthy (plookup property "$ref")

/-- Source: `schema_utils.is_multi_file_property`. -/
def is_multi_file_property (property : JObj) : Bool :=
  if plookup property "type" != some (.str "array") then false
  else if pyIsNone (plookup property "items") then false
  else
    match (get_property_items property).bind (fun it => pyIdx it "format") with
    | .ok v => v == .str "byte"
    | .error _ => false

/-- Source: `schema_utils.is_single_object`.  The whole body runs in a
`try/except` returning `false` on any exception: the single reference item
must resolve, its `type` entry must exist and equal `"object"`, and it must
carry a `properties` key. -/
def is_single_object (property : JObj) (references : JObj) : Bool :=
  match get_single_reference_item property references with
  | none => false
  | some ref =>
    match pyIdx ref "type" with
    | .ok (.str "object") =>
      match pyInVal (.str "properties") ref with
      | .ok b => b
      | .error _ => false
    | _ => false

/-- Python `del d[k]` / `d.pop(k)`: removes the first (unique) binding. -/
def delKey : JObj → String → JObj
  | .nil, _ => .nil
  | .cons k' v rest, k => if k' = k then rest else .cons k' v (delKey rest k)

/-- Number of entries of an embedded dict. -/
def JFields.length : JFields → Int
  | .nil => 0
  | .cons _ _ rest => 1 + JFields.length rest

/-- Python `len(x)`: defined on lists, strings and dicts, a `TypeError`
otherwise. -/
def pyLen : JVal → Except String Int
  | .arr xs => .ok xs.toList.length
  | .str s => .ok s.length
  | .obj o => .ok (JFields.length o)
  | _ => .error "TypeError: object has no len"

/-- Keys of an embedded dict, as embedded strings (Python dict iteration). -/
def JFields.keyList : JFields → List JVal
  | .nil => []
  | .cons k _ rest => .str k :: JFields.keyList rest

/-- Python `for x in v`: elements of a list, characters of a string, keys of
a dict; other carriers raise a `TypeError`. -/
def iterElems : JVal → Except String (List JVal)
  | .arr xs => .ok xs.toList
  | .str s => .ok (s.toList.map (fun c => .str (String.mk [c])))
  | .obj o => .ok (JFields.keyList o)
  | _ => .error "TypeError: object is not iterable"

/-- Loop body of `schema_utils.is_union_property`: returns `False` at the
first branch that is not a single reference (without looking at later
branches); a non-dict branch raises inside `is_single_reference`
(`.get` on a non-dict is an `AttributeError`). -/
def allSingleRefs : List JVal → Except String Bool
  | [] => .ok true
  | x :: xs =>
    match x with
    | .obj o => if is_single_reference o then allSingleRefs xs else .ok false
    | _ => .error "AttributeError: object has no attribute get"

/-- Source: `schema_utils.is_union_property`.  `oneOf` falling back to
`anyOf` (a stored `null` reads back as `None`), empty unions rejected, and
every branch must be a bare single reference. -/
def is_union_property (property : JObj) : Except String Bool :=
  match (match plookup property "oneOf" with
         | some v => some v
         | none => plookup property "anyOf") with
  | none => .ok false
  | some .null => .ok false
  | some up => do
    let len ← pyLen up
    if len = 0 then pure false
    else do
      let elems ← iterElems up
      allSingleRefs elems

/-- Reference value used as a reference string: `.split` on a non-string is
an `AttributeError`. -/
def asRefStr : JVal → Except String String
  | .str s => .ok s
  | _ => .error "AttributeError: object has no attribute split"

/-- Loop of `schema_utils.get_union_references`: resolves every branch's
`$ref` against the references table; a missing `$ref` key, a non-string
reference or an unresolved definition raises (nothing catches it in
`_render_union_property`). -/
def resolveAllRefs (references : JObj) : List JVal → Except String (List JVal)
  | [] => .ok []
  | x :: xs => do
    let rv ← pyIdx x "$ref"
    let rs ← asRefStr rv
    match resolve_reference rs references with
    | none => .error "KeyError: unresolved reference"
    | some item => do
      let rest ← resolveAllRefs references xs
      pure (item :: rest)

/-- Source: `schema_utils.get_union_references`: the `oneOf`/`anyOf` list
with each branch replaced by its resolved reference item. -/
def get_union_references (property : JObj) (references : JObj) : Except String (List JVal) :=
  match (match plookup property "oneOf" with
         | some v => some v
         | none => plookup property "anyOf") with
  | none => .error "TypeError: NoneType object is not iterable"
  | some .null => .error "TypeError: NoneType object is not iterable"
  | some u => do
    let elems ← iterElems u
    resolveAllRefs references elems

/-- Where the item node handed back by `get_property_items` lives, so that
the source's in-place mutation of it can be written back: directly under
`items`, as the head of an `items` list, or inside the `anyOf` fallback
branch.  Mutations of an `anyOf`-derived item are visible (only) inside the
node's `anyOf` branch in the source; no later consumer re-reads that branch,
so the model drops that write-back. -/
inductive ItemOrigin where
  | itemsDict : ItemOrigin
  | itemsList : ItemOrigin
  | fromAnyOf : ItemOrigin
deriving DecidableEq, Repr

/-- Writes an in-place mutation of the item node back into the property
according to where the item came from. -/
def writeBackItem (origin : ItemOrigin) (property : JObj) (item : JObj) : JObj :=
  match origin with
  | .itemsDict => setKey property "items" (.obj item)
  | .itemsList =>
    match plookup property "items" with
    | some (.arr (.cons _ rest)) => setKey property "items" (.arr (.cons (.obj item) rest))
    | _ => property
  | .fromAnyOf => property

/-- Final check of `schema_utils.is_property_list_and_object` (lines
173-176): a primitive `type` on the item node stores the item back under
`items` and accepts; `.get` on a non-dict item is an `AttributeError`. -/
def itemPrimitiveCheck (property : JObj) (item : JVal) : Except String (Bool × JObj) :=
  match item with
  | .obj io =>
    if plookup io "type" == some (.str "string")
        || plookup io "type" == some (.str "number")
        || plookup io "type" == some (.str "integer") then
      .ok (true, setKey property "items" item)
    else
      .ok (false, property)
  | _ => .error "AttributeError: object has no attribute get"

/-- Source: `schema_utils.is_property_list_and_object`.  The one predicate
that is allowed to mutate its input (normalizing a primitive-wrapped
reference item in place) and to raise a fatal `TypeError` for array item
types that are neither primitive nor object; the updated property travels
in the result.  The `try/except (KeyError, TypeError)` around
`get_property_items` is modelled by matching on those two error strings
(an `IndexError` propagates). -/
def is_property_list_and_object (property : JObj) (references : JObj) : Except String (Bool × JObj) :=
  if plookup property "type" != some (.str "array") then .ok (false, property)
  else do
    let bothNone ←
      if pyIsNone (plookup property "items") then do
        let anyv := match plookup property "anyOf" with
                    | none => JVal.arr (.cons (.obj .nil) .nil)
                    | some v => v
        let first ← pyIdx0 anyv
        match first with
        | .obj fo => pure (pyIsNone (plookup fo "items"))
        | _ => Except.error "AttributeError: object has no attribute get"
      else pure false
    if bothNone then pure (false, property)
    else do
      let itemAndOrigin ←
        match get_property_items property with
        | .ok it =>
          match plookup property "items" with
          | some (.arr _) => pure (it, ItemOrigin.itemsList)
          | _ => pure (it, ItemOrigin.itemsDict)
        | .error e =>
          if e = "KeyError" || e = "TypeError" then do
            let anyv := match plookup property "anyOf" with
                        | none => JVal.null
                        | some v => v
            let first ← pyIdx0 anyv
            match first with
            | .obj fo => do
              let it ← get_property_items fo
              pure (it, ItemOrigin.fromAnyOf)
            | _ => Except.error "TypeError"
          else Except.error e
      let item := itemAndOrigin.1
      let origin := itemAndOrigin.2
      let hasRef ← pyInVal (.str "$ref") item
      if hasRef then do
        let rv ← pyIdx item "$ref"
        let rs ← asRefStr rv
        let objRef ←
          match resolve_reference rs references with
          | none => Except.error "KeyError: unresolved reference"
          | some v => pure v
        let t ← pyIdx objRef "type"
        if t == .str "string" || t == .str "number" || t == .str "integer" then do
          let itemObj ←
            match item with
            | .obj io => pure io
            | _ => Except.error "AttributeError: object has no attribute pop"
          let item2 := setKey (delKey itemObj "$ref") "type" t
          let property2 := writeBackItem origin property item2
          itemPrimitiveCheck property2 (.obj item2)
        else if t != .str "object" then
          Except.error "TypeError: type of array-like field not supported"
        else do
          let property2 := setKey property "items" item
          let b ← pyInVal (.str "properties") objRef
          pure (b, property2)
      else itemPrimitiveCheck property item

/-! ## ui_renderer.py -/

/-- Source: `InputUI._render_property`, lines 1087-1092 (union flattening).
When `type` reads back as `None` and `anyOf` does not, the first `anyOf`
branch's `type` and `additionalProperties` entries (when present) are copied
onto the node itself — first-branch-wins. -/
def flatten_any_of (property : JObj) : Except String JObj :=
  let any_of := plookup property "anyOf"
  if pyIsNone (plookup property "type") && !pyIsNone any_of then do
    let first ← pyIdx0 (any_of.getD .null)
    let hasType ← pyInVal (.str "type") first
    let p1 ←
      if hasType then do
        let tv ← pyIdx first "type"
        pure (setKey property "type" tv)
      else pure property
    let hasAddl ← pyInVal (.str "additionalProperties") first
    if hasAddl then do
      let av ← pyIdx first "additionalProperties"
      pure (setKey p1 "additionalProperties" av)
    else pure p1
  else pure property

/-- Source: `InputUI._render_property`, lines 1093-1099.  When `items` is a
non-empty list whose first element is falsy, that element is annotated in
place with `type = "string"` (an item assignment that raises on a falsy
non-dict first element). -/
def normalize_empty_items (property : JObj) : Except String JObj :=
  match (plookup property "items").getD (.obj .nil) with
  | .arr (.cons first rest) =>
    if !first.isTruthy then
      match first with
      | .obj fo =>
        .ok (setKey property "items" (.arr (.cons (.obj (setKey fo "type" (.str "string"))) rest)))
      | _ => .error "TypeError: item does not support item assignment"
    else .ok property
  | _ => .ok property

/-- The widget shapes `InputUI._render_property` dispatches to, in source
order; the two raw-string fallbacks at the bottom of the chain and the
final unsupported-property warning are separate outcomes. -/
inductive Shape where
  | singleEnum : Shape
  | multiEnum : Shape
  | singleFile : Shape
  | multiFile : Shape
  | singleDatetime : Shape
  | singleColor : Shape
  | singleBoolean : Shape
  | singleDict : Shape
  | singleNumber : Shape
  | singleString : Shape
  | singleObject : Shape
  | listAndObject : Shape
  | singleReference : Shape
  | unionShape : Shape
  | rawStringNoType : Shape
  | rawStringArray : Shape
  | unsupported : Shape
deriving DecidableEq, Repr

/-- Source: `InputUI._render_property`, lines 1084-1154: union flattening
and empty-item normalization, then the predicate chain in its fixed source
order; the first predicate that fires decides the shape.  The possibly
mutated node travels with the result (`is_property_list_and_object` is the
only predicate that rewrites it). -/
def classify_property (references : JObj) (property : JObj) : Except String (Shape × JObj) := do
  let p0 ← flatten_any_of property
  let p ← normalize_empty_items p0
  if is_single_enum_property p references then pure (.singleEnum, p)
  else if is_multi_enum_property p references then pure (.multiEnum, p)
  else if is_single_file_property p then pure (.singleFile, p)
  else if is_multi_file_property p then pure (.multiFile, p)
  else if is_single_datetime_property p then pure (.singleDatetime, p)
  else if is_single_color_property p then pure (.singleColor, p)
  else if is_single_boolean_property p then pure (.singleBoolean, p)
  else if is_single_dict_property p then pure (.singleDict, p)
  else if is_single_number_property p then pure (.singleNumber, p)
  else if is_single_string_property p then pure (.singleString, p)
  else if is_single_object p references then pure (.singleObject, p)
  else do
    let r ← is_property_list_and_object p references
    if r.1 then pure (.listAndObject, r.2)
    else if is_single_reference r.2 then pure (.singleReference, r.2)
    else do
      let u ← is_union_property r.2
      if u then pure (.unionShape, r.2)
      else if pyIsNone (plookup r.2 "type") then pure (.rawStringNoType, r.2)
      else if plookup r.2 "type" == some (.str "array") then pure (.rawStringArray, r.2)
      else pure (.unsupported, r.2)

/-- Source: `InputUI._remove_button_allowed` (lines 952-961).  True when the
node is read-only (`readOnly is True`) or `(index + 1) <= minItems`, the
missing `minItems` defaulting to `0`.  Python's `bool` is an `int`, so a
boolean `minItems` compares as `0`/`1`; other carriers raise. -/
def remove_button_allowed (index : Nat) (property : JObj) : Except String Bool :=
  if plookup property "readOnly" == some (.bool true) then .ok true
  else
    match (plookup property "minItems").getD (.num 0) with
    | .num m => .ok ((index : Int) + 1 ≤ m)
    | .bool b => .ok ((index : Int) + 1 ≤ (if b then 1 else 0))
    | _ => .error "TypeError: comparison not supported"

/-- Python item assignment `x[k] = v` with a string key: in-place dict
update; every other carrier raises a `TypeError`. -/
def pySetItem (x : JVal) (k : String) (v : JVal) : Except String JVal :=
  match x with
  | .obj o => .ok (.obj (setKey o k v))
  | _ => .error "TypeError: object does not support item assignment"

/-- Loop of `InputUI._get_value_from_state` over the split key segments.
On a non-final segment a missing key is auto-created as `{}` (an in-place
mutation, returned here as the updated state); the final segment returns the
stored value or `None`.  The in-place mutation of the inner dict is written
back into its parent on the way out (the parent is necessarily a dict
whenever the recursion descended). -/
def getFromStateGo : JVal → List String → Except String (Option JVal × JVal)
  | st, [] => .ok (none, st)
  | st, [k] => do
    let b ← pyInVal (.str k) st
    if !b then pure (none, st)
    else do
      let v ← pyIdx st k
      pure (some v, st)
  | st, k :: k2 :: rest => do
    let b ← pyInVal (.str k) st
    let st1 ← if !b then pySetItem st k (.obj .nil) else pure st
    let sub ← pyIdx st1 k
    let res ← getFromStateGo sub (k2 :: rest)
    let st2 ← pySetItem st1 k res.2
    pure (res.1, st2)

/-- Source: `InputUI._get_value_from_state` (lines 326-337): splits the
dotted key and walks the nested state, returning the found value (or `None`)
together with the state as left behind by the walk's auto-creation. -/
def get_value_from_state (state : JVal) (key : String) : Except String (Option JVal × JVal) :=
  getFromStateGo state (pySplit '.' key)

/-- Discriminator predicate of the generator expression in
`InputUI._render_union_property` (lines 644-649): the candidate's
`properties[disc_prop]["enum"]` must equal the one-element list holding the
instance's discriminator value. -/
def discEnumMatch (dp : String) (target : JVal) (x : JVal) : Except String Bool := do
  let props ← pyIdx x "properties"
  let d ← pyIdx props dp
  let en ← pyIdx d "enum"
  pure (en == .arr (.cons target .nil))

/-- Title predicate of the generator expression in
`InputUI._render_union_property` (lines 655-659): the candidate's `title`
must occur as a substring of the node's `instance_class` string. -/
def titleInstanceMatch (ic : JVal) (x : JVal) : Except String Bool := do
  let t ← pyIdx x "title"
  pyInVal t ic

/-- Python `next(i for i, x in enumerate(xs) if pred(x))`: index of the
first match; predicate exceptions propagate and exhaustion raises
`StopIteration`. -/
def find_first_match (pred : JVal → Except String Bool) : List JVal → Except String Nat
  | [] => .error "StopIteration"
  | x :: xs => do
    let b ← pred x
    if b then pure 0
    else do
      let n ← find_first_match pred xs
      pure (n + 1)

/-- Source: `InputUI._render_union_property`, lines 639-661 (branch
disambiguation): with a truthy `init_value` and a truthy `discriminator`,
the branch is the first resolved reference whose discriminator enum equals
`[init_value[disc_prop]]`; otherwise, with a truthy `init_value` and a
truthy `instance_class`, the first whose `title` occurs in the
`instance_class` string; otherwise no index is preselected.  The function
returns the selected index; writing `init_value` through onto the selected
reference item and seeding the selectbox are rendering chrome around this
choice.  A non-string `propertyName` would miss every string key downstream,
collapsed here to an error. -/
def union_branch_index (property : JObj) (reference_items : List JVal) : Except String (Option Nat) :=
  if optTruthy (plookup property "init_value") && optTruthy (plookup property "discriminator") then do
    let disc ← pyIdx (.obj property) "discriminator"
    let dpv ← pyIdx disc "propertyName"
    let dp ←
      match dpv with
      | .str s => pure s
      | _ => Except.error "KeyError: non-string discriminator key"
    let iv ← pyIdx (.obj property) "init_value"
    let target ← pyIdx iv dp
    let i ← find_first_match (discEnumMatch dp target) reference_items
    pure (some i)
  else if optTruthy (plookup property "init_value") && optTruthy (plookup property "instance_class") then do
    let ic ← pyIdx (.obj property) "instance_class"
    let i ← find_first_match (titleInstanceMatch ic) reference_items
    pure (some i)
  else pure none

/-- Outcome of `InputUI._render_single_enum_input`: either the single
option handed straight back (no widget), or a selectbox over the options
with an optional preselected index. -/
inductive EnumRender where
  | directValue (v : JVal) : EnumRender
  | selectbox (options : List JVal) (index : Option Nat) : EnumRender
deriving DecidableEq, Repr

/-- Option list of `InputUI._render_single_enum_input` (lines 543-550): the
truthy literal `enum`, or the `enum` of the single resolved reference (whose
resolution failure propagates here — the predicate guard already ran).
Enum carriers are lists in every schema; a truthy non-list carrier is
collapsed to an error. -/
def enum_select_options (property : JObj) (references : JObj) : Except String (List JVal) :=
  if optTruthy (plookup property "enum") then
    match plookup property "enum" with
    | some (.arr xs) => .ok xs.toList
    | _ => .error "TypeError: enum carrier not a list"
  else
    match get_single_reference_item property references with
    | none => .error "KeyError: unresolved reference"
    | some ref =>
      match pyIdx ref "enum" with
      | .ok (.arr xs) => .ok xs.toList
      | .ok _ => .error "TypeError: enum carrier not a list"
      | .error e => .error e

/-- Source: `InputUI._render_single_enum_input` (lines 537-571): computes
the option list, then the preselected index from a truthy `init_value` or a
non-`None` default (`list.index` raising `ValueError` when the value is not
among the options), and then returns the lone option directly when the list
has exactly one element, a selectbox otherwise. -/
def render_single_enum (property : JObj) (references : JObj) : Except String EnumRender := do
  let options ← enum_select_options property references
  let idx ←
    if optTruthy (plookup property "init_value") then
      match options.indexOf? ((plookup property "init_value").getD .null) with
      | some i => pure (some i)
      | none => Except.error "ValueError: value not in list"
    else if !pyIsNone (plookup property "default") then
      match options.indexOf? ((plookup property "default").getD .null) with
      | some i => pure (some i)
      | none => Except.error "ValueError: value not in list"
    else pure none
  match options with
  | [v] => pure (.directValue v)
  | _ => pure (.selectbox options idx)

/-- One entry of `ValidationError.errors()` as consumed by
`InputUI.render_ui`: optional `loc` path segments and `msg`, plus the
`str(error)` fallback rendering.  Path segments are modelled as strings
(the dotted join of the source; integer segments produced by the external
validator for list indices sit outside this model). -/
structure VError where
  loc : Option (List String)
  msg : Option String
  str_repr : String
deriving DecidableEq, Repr

/-- Strips `old` from the front of `s`, returning the remainder when it is
a prefix. -/
def stripOcc : List Char → List Char → Option (List Char)
  | [], s => some s
  | _ :: _, [] => none
  | o :: os, c :: cs => if o = c then stripOcc os cs else none

/-- Left-to-right removal of every (non-overlapping) occurrence of `old`,
fuelled by the input length; for a non-empty `old` the fuel never runs
out. -/
def removeAllFuel (old : List Char) : Nat → List Char → List Char
  | 0, s => s
  | _ + 1, [] => []
  | fuel + 1, c :: cs =>
    match stripOcc old (c :: cs) with
    | some rest => removeAllFuel old fuel rest
    | none => c :: removeAllFuel old fuel cs

/-- Python `s.replace(old, "")` for a non-empty `old`: every occurrence of
`old` deleted, scanning left to right. -/
def pyReplaceRemove (old : String) (s : String) : String :=
  String.mk (removeAllFuel old.toList s.toList.length s.toList)

/-- Per-error line of the warning built in `InputUI.render_ui` (lines
252-259): for a structural error the dotted path with every literal
`__root__.` occurrence removed, bold-marked and followed by the message;
otherwise the error's string rendering. -/
def format_validation_error (e : VError) : String :=
  match e.loc, e.msg with
  | some loc, some msg =>
    "**" ++ pyReplaceRemove "__root__." (String.intercalate "." loc) ++ ":** " ++ msg
  | _, _ => e.str_repr

/-- Source: `InputUI.render_ui`, lines 236-261 (the `return_model=True`
tail): a successful validation returns the model value; a `ValidationError`
is caught, folded into the warning text shown on screen, and the caller
receives `None`.  The pair is (returned value, displayed warning). -/
def render_ui_validation (result : Except (List VError) JVal) : Option JVal × Option String :=
  match result with
  | .ok m => (some m, none)
  | .error errs =>
    (none,
     some (errs.foldl (fun acc e => acc ++ "\n\n" ++ format_validation_error e)
       "**Input failed validation:**"))

/-- Closed form of the warning body: one `\n\n`-prefixed line per error, in
order (used to state what the fold in `render_ui_validation` produces). -/
def warning_lines : List VError → String
  | [] => ""
  | e :: rest => "\n\n" ++ format_validation_error e ++ warning_lines rest

/-- Whitespace skipping of the JSON reader. -/
def skipWs : List Char → List Char
  | [] => []
  | c :: cs => if c = ' ' || c = '\n' || c = '\t' || c = '\r' then skipWs cs else c :: cs

/-- String-literal body of the JSON reader: characters up to the closing
quote (escape sequences are outside the model). -/
def parseStringBody : List Char → List Char → Except String (String × List Char)
  | [], _ => .error "Unterminated string"
  | c :: cs, acc =>
    if c = '"' then .ok (String.mk acc.reverse, cs)
    else if c = '\\' then .error "Unsupported escape"
    else parseStringBody cs (c :: acc)

/-- Longest digit prefix. -/
def takeDigits : List Char → List Char × List Char
  | [] => ([], [])
  | c :: cs =>
    if c.isDigit then
      match takeDigits cs with
      | (ds, rest) => (c :: ds, rest)
    else ([], c :: cs)

/-- Numeric value of a digit string. -/
def digitsToNat (ds : List Char) : Nat :=
  ds.foldl (fun n c => 10 * n + (c.toNat - 48)) 0

mutual
/-- Recursive-descent JSON value reader (fuelled).  Together with
`json_loads` this models CPython `json.loads` on the fragment exercised
here: `null`, booleans, integers, escape-free strings, arrays and objects;
anything else — in particular any malformed document — is a decoding
error, which is all the seeding path of `_render_object_input` depends
on. -/
def parseJVal : Nat → List Char → Except String (JVal × List Char)
  | 0, _ => .error "JSON too deep"
  | fuel + 1, cs =>
    match skipWs cs with
    | [] => .error "Expecting value"
    | 'n' :: 'u' :: 'l' :: 'l' :: rest => .ok (.null, rest)
    | 't' :: 'r' :: 'u' :: 'e' :: rest => .ok (.bool true, rest)
    | 'f' :: 'a' :: 'l' :: 's' :: 'e' :: rest => .ok (.bool false, rest)
    | '"' :: rest => do
      let sr ← parseStringBody rest []
      pure (.str sr.1, sr.2)
    | '[' :: rest =>
      (match skipWs rest with
       | ']' :: rest2 => .ok (.arr .nil, rest2)
       | _ => do
         let xr ← parseArrItems fuel rest
         pure (.arr xr.1, xr.2))
    | '{' :: rest =>
      (match skipWs rest with
       | '}' :: rest2 => .ok (.obj .nil, rest2)
       | _ => do
         let or ← parseObjItems fuel rest
         pure (.obj or.1, or.2))
    | '-' :: rest =>
      (match takeDigits rest with
       | ([], _) => .error "Expecting value"
       | (ds, rest2) => .ok (.num (-(digitsToNat ds : Int)), rest2))
    | c :: rest =>
      if c.isDigit then
        match takeDigits (c :: rest) with
        | (ds, rest2) => .ok (.num (digitsToNat ds), rest2)
      else .error "Expecting value"
/-- Comma-separated items of a JSON array, up to the closing bracket. -/
def parseArrItems : Nat → List Char → Except String (JArr × List Char)
  | 0, _ => .error "JSON too deep"
  | fuel + 1, cs => do
    let vr ← parseJVal fuel cs
    match skipWs vr.2 with
    | ',' :: rest2 => do
      let xr ← parseArrItems fuel rest2
      pure (.cons vr.1 xr.1, xr.2)
    | ']' :: rest2 => pure (.cons vr.1 .nil, rest2)
    | _ => .error "Expecting comma"
/-- Comma-separated members of a JSON object, up to the closing brace. -/
def parseObjItems : Nat → List Char → Except String (JFields × List Char)
  | 0, _ => .error "JSON too deep"
  | fuel + 1, cs =>
    match skipWs cs with
    | '"' :: rest => do
      let kr ← parseStringBody rest []
      match skipWs kr.2 with
      | ':' :: rest3 => do
        let vr ← parseJVal fuel rest3
        match skipWs vr.2 with
        | ',' :: rest5 => do
          let or ← parseObjItems fuel rest5
          pure (.cons kr.1 vr.1 or.1, or.2)
        | '}' :: rest5 => pure (.cons kr.1 vr.1 .nil, rest5)
        | _ => .error "Expecting comma"
      | _ => .error "Expecting colon"
    | _ => .error "Expecting property name"
end

/-- Model of `json.loads` on a document string: one JSON value followed by
nothing but whitespace. -/
def json_loads (s : String) : Except String JVal := do
  let vr ← parseJVal (s.length + 1) s.toList
  if (skipWs vr.2).isEmpty then pure vr.1
  else .error "Extra data"

/-- Seeding of one child property inside the loop of
`InputUI._render_object_input` (lines 800-813): a truthy parent
`init_value` must be a dict and hands the child its entry; a truthy parent
`default` is fed to `json.loads` — whose failure on a non-string or
undecodable carrier is NOT caught anywhere in `_render_object_input` — and
the decoded dict hands the child its entry; `readOnly` is inherited with a
`False` fallback.  The fallback-title step (display chrome) and the
recursive `_render_property` call that consumes the seeded child are around,
not inside, this computation. -/
def seed_child (property : JObj) (property_key : String) (child : JObj) : Except String JObj := do
  let c1 ←
    if optTruthy (plookup property "init_value") then do
      let iv ← pyIdx (.obj property) "init_value"
      match iv with
      | .obj io => pure (setKey child "init_value" ((plookup io property_key).getD .null))
      | _ => Except.error "AttributeError: object has no attribute get"
    else pure child
  let c2 ←
    if optTruthy (plookup property "default") then do
      let dv ← pyIdx (.obj property) "default"
      let parsed ←
        match dv with
        | .str s => json_loads s
        | _ => Except.error "TypeError: the JSON object must be str"
      match parsed with
      | .obj po => pure (setKey c1 "default" ((plookup po property_key).getD .null))
      | _ => Except.error "AttributeError: object has no attribute get"
    else pure c1
  pure (setKey c2 "readOnly" ((plookup property "readOnly").getD (.bool false)))

/-- The seeding loop of `InputUI._render_object_input` over the referenced
object's `properties`, in order; the first child whose seeding raises aborts
the whole loop (nothing catches the exception). -/
def seedEach (property : JObj) : JFields → Except String (List (String × JObj))
  | .nil => .ok []
  | .cons k v rest => do
    let child ←
      match v with
      | .obj co => pure co
      | _ => Except.error "AttributeError: object has no attribute get"
    let c ← seed_child property k child
    let others ← seedEach property rest
    pure ((k, c) :: others)

/-- Source: `InputUI._render_object_input` (lines 797-819), restricted to
its seeding behaviour: reads `property["properties"]` and distributes
`init_value` / `default` / `readOnly` to every child in order.  An error is
an exception escaping `_render_object_input`. -/
def seed_children (property : JObj) : Except String (List (String × JObj)) := do
  let props ← pyIdx (.obj property) "properties"
  match props with
  | .obj po => seedEach property po
  | _ => .error "TypeError: not a dict of properties"

/-- Domain of claim C9: walks of a segment list over the nested state that
hit a missing key while every container actually visited is a dict — either
the current (possibly final) segment is absent from the current dict, or it
maps to a value in which the remaining segments hit a missing key.  Once a
segment is missing, `_get_value_from_state` auto-creates empty dicts below
it, so every deeper segment is missing as well. -/
def reaches_missing : JVal → List String → Bool
  | .obj o, [k] => (plookup o k).isNone
  | .obj o, k :: k2 :: rest =>
    match plookup o k with
    | none => true
    | some v => reaches_missing v (k2 :: rest)
  | _, _ => false

/-! ## Shared lemmas -/

theorem plookup_setKey_self : ∀ (o : JObj) (k : String) (v : JVal),
    plookup (setKey o k v) k = some v
  | .nil, k, v => by simp [setKey, plookup]
  | .cons k' v' rest, k, v => by
    by_cases h : k' = k
    · simp [setKey, h, plookup]
    · simp [setKey, h, plookup, plookup_setKey_self rest k v]

theorem plookup_setKey_of_ne : ∀ (o : JObj) (k k2 : String) (v : JVal), k2 ≠ k →
    plookup (setKey o k v) k2 = plookup o k2
  | .nil, k, k2, v, h => by
    simp [setKey, plookup, Ne.symm h]
  | .cons k' v' rest, k, k2, v, h => by
    by_cases h' : k' = k
    · subst h'
      simp [setKey, plookup, Ne.symm h]
    · simp [setKey, h', plookup, plookup_setKey_of_ne rest k k2 v h]

/-! ## Claim C3 -/

/-- C3: for every list node, `_remove_button_allowed(index, node)` returns
`True` whenever `index + 1 <= minItems`, a missing `minItems` counting as
`0`; this covers `minItems ∈ {0, 1, 2}` and every valid index. -/
theorem remove_button_allowed_of_le_min_items
    (index : Nat) (property : JObj) (m : Int)
    (hmin : (plookup property "minItems").getD (.num 0) = .num m)
    (hle : (index : Int) + 1 ≤ m) :
    remove_button_allowed index property = .ok true := by
  unfold remove_button_allowed
  by_cases h : plookup property "readOnly" == some (.bool true)
  · simp [h]
  · simp [h, hmin, hle]

/-- Witness for C3: with `minItems = 2` the second item (index 1) may not
be removed: the guard returns `True`. -/
theorem remove_button_allowed_of_le_min_items_witness :
    (plookup (JFields.ofList [("minItems", .num 2)]) "minItems").getD (.num 0) = .num 2
    ∧ remove_button_allowed 1 (JFields.ofList [("minItems", .num 2)]) = .ok true :=
  ⟨by decide, remove_button_allowed_of_le_min_items 1 _ 2 (by decide) (by decide)⟩

/-! ## Claim C10 -/

/-- C10: `_get_value_from_state` is not read-only: reading the dotted key
`a.b.c` from an empty store returns no value, yet auto-creates an empty
mapping for every missing intermediate segment, leaving the store equal to
`{"a": {"b": {}}}`. -/
theorem get_value_from_state_autocreates_on_read :
    get_value_from_state (.obj .nil) "a.b.c"
      = .ok (none, .obj (.cons "a" (.obj (.cons "b" (.obj .nil) .nil)) .nil)) := by
  rfl

/-! ## Claim C9 -/

theorem except_bind_ok {α β ε : Type} (a : α) (f : α → Except ε β) :
    (Except.ok a >>= f) = f a := rfl

theorem except_bind_error {α β ε : Type} (e : ε) (f : α → Except ε β) :
    ((Except.error e : Except ε α) >>= f) = .error e := rfl

theorem except_map_ok {α β ε : Type} (f : α → β) (a : α) :
    (f <$> (Except.ok a : Except ε α)) = .ok (f a) := rfl

theorem except_pure_eq_ok {α ε : Type} (a : α) :
    (pure a : Except ε α) = .ok a := rfl

theorem getFromStateGo_fresh : ∀ (rest : List String) (k : String),
    ∃ st', getFromStateGo (.obj .nil) (k :: rest) = .ok (none, st')
  | [], k => ⟨.obj .nil, by
    simp [getFromStateGo, pyInVal, plookup, except_bind_ok, except_pure_eq_ok]⟩
  | k2 :: rest, k => by
    obtain ⟨st', hst⟩ := getFromStateGo_fresh rest k2
    refine ⟨.obj (.cons k st' .nil), ?_⟩
    simp [getFromStateGo, pyInVal, plookup, pySetItem, setKey, pyIdx, hst,
      except_bind_ok, except_map_ok, except_pure_eq_ok]

theorem getFromStateGo_missing : ∀ (segs : List String) (st : JVal),
    reaches_missing st segs = true →
    ∃ st', getFromStateGo st segs = .ok (none, st')
  | [], _, h => by simp [reaches_missing] at h
  | [k], st, h => by
    cases st with
    | obj o =>
      have hp : plookup o k = none := by
        simpa [reaches_missing, Option.isNone_iff_eq_none] using h
      exact ⟨.obj o, by
        simp [getFromStateGo, pyInVal, hp, except_bind_ok, except_pure_eq_ok]⟩
    | null => simp [reaches_missing] at h
    | bool b => simp [reaches_missing] at h
    | num n => simp [reaches_missing] at h
    | str s => simp [reaches_missing] at h
    | arr xs => simp [reaches_missing] at h
  | k :: k2 :: rest, st, h => by
    cases st with
    | obj o =>
      cases hp : plookup o k with
      | none =>
        obtain ⟨st', hst⟩ := getFromStateGo_fresh rest k2
        exact ⟨.obj (setKey (setKey o k (.obj .nil)) k st'),
          by simp [getFromStateGo, pyInVal, hp, pySetItem, pyIdx, plookup_setKey_self, hst,
            except_bind_ok, except_map_ok, except_pure_eq_ok]⟩
      | some v =>
        have h' : reaches_missing v (k2 :: rest) = true := by
          simpa [reaches_missing, hp] using h
        obtain ⟨st', hst⟩ := getFromStateGo_missing (k2 :: rest) v h'
        exact ⟨.obj (setKey o k st'),
          by simp [getFromStateGo, pyInVal, hp, pyIdx, pySetItem, hst,
            except_bind_ok, except_map_ok, except_pure_eq_ok]⟩
    | null => simp [reaches_missing] at h
    | bool b => simp [reaches_missing] at h
    | num n => simp [reaches_missing] at h
    | str s => simp [reaches_missing] at h
    | arr xs => simp [reaches_missing] at h

/-- C9: for every state mapping and every dotted key that hits a missing
segment while walking through mappings — an intermediate segment absent
from the state, or the final segment absent from its existing parent
mapping — `_get_value_from_state` returns no value (`None`) instead of
raising. -/
theorem get_value_from_state_missing_segment_none
    (state : JObj) (key : String)
    (h : reaches_missing (.obj state) (pySplit '.' key) = true) :
    ∃ st', get_value_from_state (.obj state) key = .ok (none, st') :=
  getFromStateGo_missing (pySplit '.' key) (.obj state) h

/-- Witness for C9: under the store `{"a": {"x": 1}}` the key `a.b.c` has
the missing intermediate segment `b`, and the lookup returns `None` without
an error. -/
theorem get_value_from_state_missing_segment_none_witness :
    reaches_missing (.obj (JFields.ofList [("a", .obj (JFields.ofList [("x", .num 1)]))]))
      (pySplit '.' "a.b.c") = true
    ∧ ∃ st',
      get_value_from_state (.obj (JFields.ofList [("a", .obj (JFields.ofList [("x", .num 1)]))])) "a.b.c"
        = .ok (none, st') :=
  ⟨by decide, get_value_from_state_missing_segment_none _ "a.b.c" (by decide)⟩

/-! ## Claim C4 -/

theorem foldl_warning_eq (errs : List VError) : ∀ (init : String),
    errs.foldl (fun acc e => acc ++ "\n\n" ++ format_validation_error e) init
      = init ++ warning_lines errs := by
  induction errs with
  | nil => intro init; simp [warning_lines, String.append_empty]
  | cons e rest ih =>
    intro init
    rw [List.foldl_cons, ih (init ++ "\n\n" ++ format_validation_error e)]
    simp [warning_lines, String.append_assoc]

/-- C4: when validation of the submitted state fails, the
`return_model=True` path of `render_ui` hands the caller `None` (the
exception is consumed, not propagated) and shows a warning whose body has
one line per structural error, of the form
`**<dotted.path>:** <message>` with every literal `__root__.` segment
stripped from the dotted path. -/
theorem render_ui_validation_failure_shape (errs : List VError) :
    render_ui_validation (.error errs)
      = (none, some ("**Input failed validation:**" ++ warning_lines errs))
    ∧ (∀ e loc msg, e ∈ errs → e.loc = some loc → e.msg = some msg →
        format_validation_error e
          = "**" ++ pyReplaceRemove "__root__." (String.intercalate "." loc) ++ ":** " ++ msg) := by
  constructor
  · simp [render_ui_validation, foldl_warning_eq]
  · intro e loc msg _ hl hm
    simp [format_validation_error, hl, hm]

/-- Witness for C4: a single structural error at `__root__.name` with
message `field required` produces `None` together with the two-line warning
whose error line is `**name:** field required`. -/
theorem render_ui_validation_failure_shape_witness :
    render_ui_validation (.error [⟨some ["__root__", "name"], some "field required", "r"⟩])
      = (none, some ("**Input failed validation:**"
          ++ warning_lines [⟨some ["__root__", "name"], some "field required", "r"⟩]))
    ∧ format_validation_error ⟨some ["__root__", "name"], some "field required", "r"⟩
      = "**name:** field required" := by
  constructor
  · exact (render_ui_validation_failure_shape _).1
  · have h := (render_ui_validation_failure_shape
        [⟨some ["__root__", "name"], some "field required", "r"⟩]).2
      ⟨some ["__root__", "name"], some "field required", "r"⟩
      ["__root__", "name"] "field required" (by simp) rfl rfl
    rw [h]
    rfl

/-! ## Claim C7 -/

/-- C7: for every node without a `type` entry but with a non-empty `anyOf`
whose first branch is a dict, `_render_property` flattens the union before
any shape classification by copying the first branch's `type` entry (when it
has one) and its `additionalProperties` entry (when present) onto the node —
first-branch-wins. -/
theorem flatten_any_of_first_branch
    (property : JObj) (first : JObj) (rest : JArr)
    (htype : plookup property "type" = none)
    (hany : plookup property "anyOf" = some (.arr (.cons (.obj first) rest))) :
    ∃ p2, flatten_any_of property = .ok p2
      ∧ (∀ tv, plookup first "type" = some tv → plookup p2 "type" = some tv)
      ∧ (plookup first "type" = none → plookup p2 "type" = none)
      ∧ (∀ av, plookup first "additionalProperties" = some av →
          plookup p2 "additionalProperties" = some av)
      ∧ (plookup first "additionalProperties" = none →
          plookup p2 "additionalProperties" = plookup property "additionalProperties") := by
  cases hft : plookup first "type" with
  | some tv =>
    cases hfa : plookup first "additionalProperties" with
    | some av =>
      refine ⟨setKey (setKey property "type" tv) "additionalProperties" av, ?_, ?_, ?_, ?_, ?_⟩
      · simp [flatten_any_of, htype, hany, pyIsNone, pyIdx0, pyInVal, pyIdx, hft, hfa,
          except_bind_ok, except_pure_eq_ok]
      · intro tv' htv'
        cases htv'
        rw [plookup_setKey_of_ne _ _ _ _ (by decide), plookup_setKey_self]
      · intro hn
        cases hn
      · intro av' hav'
        cases hav'
        rw [plookup_setKey_self]
      · intro hn
        cases hn
    | none =>
      refine ⟨setKey property "type" tv, ?_, ?_, ?_, ?_, ?_⟩
      · simp [flatten_any_of, htype, hany, pyIsNone, pyIdx0, pyInVal, pyIdx, hft, hfa,
          except_bind_ok, except_pure_eq_ok]
      · intro tv' htv'
        cases htv'
        rw [plookup_setKey_self]
      · intro hn
        cases hn
      · intro av' hav'
        cases hav'
      · intro _
        rw [plookup_setKey_of_ne _ _ _ _ (by decide)]
  | none =>
    cases hfa : plookup first "additionalProperties" with
    | some av =>
      refine ⟨setKey property "additionalProperties" av, ?_, ?_, ?_, ?_, ?_⟩
      · simp [flatten_any_of, htype, hany, pyIsNone, pyIdx0, pyInVal, pyIdx, hft, hfa,
          except_bind_ok, except_pure_eq_ok]
      · intro tv' htv'
        cases htv'
      · intro _
        rw [plookup_setKey_of_ne _ _ _ _ (by decide), htype]
      · intro av' hav'
        cases hav'
        rw [plookup_setKey_self]
      · intro hn
        cases hn
    | none =>
      refine ⟨property, ?_, ?_, ?_, ?_, ?_⟩
      · simp [flatten_any_of, htype, hany, pyIsNone, pyIdx0, pyInVal, pyIdx, hft, hfa,
          except_bind_ok, except_pure_eq_ok]
      · intro tv' htv'
        cases htv'
      · intro _
        exact htype
      · intro av' hav'
        cases hav'
      · intro _
        rfl

/-- Witness for C7: a node with no `type` and `anyOf` starting with
`{"type": "string", "additionalProperties": true}` receives both entries
from that first branch. -/
theorem flatten_any_of_first_branch_witness :
    ∃ p2, flatten_any_of (JFields.ofList [("anyOf", .arr (.cons
        (.obj (JFields.ofList [("type", .str "string"), ("additionalProperties", .bool true)]))
        (.cons (.obj .nil) .nil)))]) = .ok p2
      ∧ plookup p2 "type" = some (.str "string")
      ∧ plookup p2 "additionalProperties" = some (.bool true) := by
  obtain ⟨p2, h1, h2, _, h4, _⟩ := flatten_any_of_first_branch
    (JFields.ofList [("anyOf", .arr (.cons
      (.obj (JFields.ofList [("type", .str "string"), ("additionalProperties", .bool true)]))
      (.cons (.obj .nil) .nil)))])
    (JFields.ofList [("type", .str "string"), ("additionalProperties", .bool true)])
    (.cons (.obj .nil) .nil) rfl rfl
  exact ⟨p2, h1, h2 _ rfl, h4 _ rfl⟩

/-! ## Claim C6 -/

/-- Counterexample for C6 as stated: the node
`{"enum": ["a"], "$ref": "#/$defs/Missing"}` carries a direct reference to
a definition missing from the (empty) references table, yet
`is_single_enum_property` returns `true`, not `false`: the truthy literal
`enum` short-circuits before any resolution is attempted. -/
theorem is_single_enum_property_dangling_ref_counterexample :
    resolve_reference "#/$defs/Missing" .nil = none
    ∧ is_single_enum_property
        (JFields.ofList [("enum", .arr (.cons (.str "a") .nil)), ("$ref", .str "#/$defs/Missing")])
        .nil = true := ⟨rfl, rfl⟩

/-- C6 (amended): a failed resolution never escapes the soft predicates as
an exception, and they return `false` whenever the literal-enum probe does
not fire first: `is_single_enum_property` returns `false` when the node's
own `enum` is not truthy and its direct `$ref` names a missing definition,
and `is_multi_enum_property` returns `false` when the node's item schema
carries no `enum` entry and its `$ref` names a missing definition.  (A node
whose literal enum probe succeeds is classified as an enum without touching
the references table, as the counterexample shows.) -/
theorem soft_predicates_dangling_ref_false
    (p q refs : JObj) (r rq : String) (itm : JObj)
    (h1 : optTruthy (plookup p "enum") = false)
    (h2 : plookup p "$ref" = some (.str r))
    (h3 : resolve_reference r refs = none)
    (h4 : get_property_items q = .ok (.obj itm))
    (h5 : plookup itm "enum" = none)
    (h6 : plookup itm "$ref" = some (.str rq))
    (h7 : resolve_reference rq refs = none) :
    is_single_enum_property p refs = false
    ∧ is_multi_enum_property q refs = false := by
  constructor
  · simp [is_single_enum_property, h1, get_single_reference_item, h2, h3]
  · simp only [is_multi_enum_property]
    split
    · rfl
    · split
      · rfl
      · simp [h4, h5, h6, h7, pyIdx, Except.bind]

/-- Witness for the amended C6: a node whose only reference is dangling is
not a single enum, and an array node with `uniqueItems` whose item schema
references a missing definition is not a multi enum — both predicates
return `false` instead of raising. -/
theorem soft_predicates_dangling_ref_false_witness :
    is_single_enum_property (JFields.ofList [("$ref", .str "#/$defs/Missing")]) .nil = false
    ∧ is_multi_enum_property
        (JFields.ofList [("type", .str "array"), ("uniqueItems", .bool true),
          ("items", .obj (JFields.ofList [("$ref", .str "#/$defs/Missing")]))]) .nil = false :=
  soft_predicates_dangling_ref_false
    (JFields.ofList [("$ref", .str "#/$defs/Missing")])
    (JFields.ofList [("type", .str "array"), ("uniqueItems", .bool true),
      ("items", .obj (JFields.ofList [("$ref", .str "#/$defs/Missing")]))])
    .nil "#/$defs/Missing" "#/$defs/Missing"
    (JFields.ofList [("$ref", .str "#/$defs/Missing")])
    rfl rfl rfl rfl rfl rfl rfl

/-! ## Claim C8 -/

/-- Counterexample for C8 as stated: for the single-enum node
`{"enum": ["a"], "init_value": "b"}` the option list is the singleton
`["a"]`, but the dispatcher does not return `"a"`: the seeding lookup
`select_options.index("b")` raises a `ValueError` (which nothing catches)
before the single-option shortcut is reached. -/
theorem render_single_enum_singleton_counterexample :
    enum_select_options
        (JFields.ofList [("enum", .arr (.cons (.str "a") .nil)), ("init_value", .str "b")]) .nil
      = .ok [.str "a"]
    ∧ render_single_enum
        (JFields.ofList [("enum", .arr (.cons (.str "a") .nil)), ("init_value", .str "b")]) .nil
      = .error "ValueError: value not in list" := ⟨rfl, rfl⟩

/-- C8 (amended): whenever the option list of a single-enum node is a
singleton `[v]` — a literal one-element enum or a single reference
resolving to one — the renderer never presents a selection widget: if it
returns at all (that is, unless the `init_value`/`default` index lookup
raises a `ValueError`), it returns `v` directly. -/
theorem render_single_enum_singleton_direct
    (property refs : JObj) (v : JVal)
    (hopts : enum_select_options property refs = .ok [v]) :
    (∀ r, render_single_enum property refs = .ok r → r = .directValue v)
    ∧ (∀ opts i, render_single_enum property refs ≠ .ok (.selectbox opts i)) := by
  have hmain : ∀ r, render_single_enum property refs = .ok r → r = .directValue v := by
    intro r hr
    simp only [render_single_enum, hopts, except_bind_ok] at hr
    by_cases hi : optTruthy (plookup property "init_value") = true
    · rw [if_pos hi] at hr
      cases hfind : List.indexOf? ((plookup property "init_value").getD .null) [v] with
      | none => rw [hfind] at hr; cases hr
      | some i =>
        rw [hfind] at hr
        simp only [except_bind_ok, except_pure_eq_ok] at hr
        cases hr
        rfl
    · rw [if_neg hi] at hr
      by_cases hd : pyIsNone (plookup property "default") = true
      · rw [if_neg (by simp [hd])] at hr
        simp only [except_bind_ok, except_pure_eq_ok] at hr
        cases hr
        rfl
      · rw [if_pos (by simp [Bool.not_eq_true] at hd ⊢; simp [hd])] at hr
        cases hfind : List.indexOf? ((plookup property "default").getD .null) [v] with
        | none => rw [hfind] at hr; cases hr
        | some i =>
          rw [hfind] at hr
          simp only [except_bind_ok, except_pure_eq_ok] at hr
          cases hr
          rfl
  refine ⟨hmain, ?_⟩
  intro opts i hcontra
  have := hmain _ hcontra
  cases this

/-- Witness for the amended C8: a literal one-element enum with no prior
value renders as the value itself, not as a widget. -/
theorem render_single_enum_singleton_direct_witness :
    render_single_enum (JFields.ofList [("enum", .arr (.cons (.str "a") .nil))]) .nil
      = .ok (.directValue (.str "a")) := by
  have h := (render_single_enum_singleton_direct
      (JFields.ofList [("enum", .arr (.cons (.str "a") .nil))]) .nil (.str "a") rfl).1
      (.directValue (.str "a")) rfl
  exact rfl

/-! ## Claim C2 -/

/-- Counterexample for C2 as stated: with the aggregated default arriving
as the undecodable string `"not json"`, the seeding loop of
`_render_object_input` raises a JSON decoding error at its first child and
the exception escapes `_render_object_input`; seeding does not fail
silently and the child does not fall through to its own fallback. -/
theorem seed_children_invalid_default_counterexample :
    json_loads "not json" = .error "Expecting value"
    ∧ seed_children (JFields.ofList [("default", .str "not json"),
        ("properties", .obj (JFields.ofList [("x", .obj .nil)]))])
      = .error "Expecting value" := ⟨rfl, rfl⟩

theorem seed_child_invalid_default
    (property : JObj) (s e k : String) (child : JObj)
    (hd : plookup property "default" = some (.str s))
    (hs : s.isEmpty = false)
    (hj : json_loads s = .error e) :
    ∃ e2, seed_child property k child = .error e2 := by
  have hdt : optTruthy (plookup property "default") = true := by
    simp [hd, optTruthy, JVal.isTruthy, hs]
  have hdv : pyIdx (.obj property) "default" = .ok (.str s) := by
    simp [pyIdx, hd]
  by_cases hiv : optTruthy (plookup property "init_value") = true
  · cases hpi : plookup property "init_value" with
    | none => rw [hpi] at hiv; simp [optTruthy] at hiv
    | some w =>
      have hidx : pyIdx (.obj property) "init_value" = .ok w := by simp [pyIdx, hpi]
      cases w with
      | obj io =>
        exact ⟨e, by
          simp [seed_child, hiv, hidx, hdt, hdv, hj, except_bind_ok, except_bind_error]⟩
      | null =>
        exact ⟨"AttributeError: object has no attribute get", by
          simp [seed_child, hiv, hidx, except_bind_ok, except_bind_error]⟩
      | bool b =>
        exact ⟨"AttributeError: object has no attribute get", by
          simp [seed_child, hiv, hidx, except_bind_ok, except_bind_error]⟩
      | num n =>
        exact ⟨"AttributeError: object has no attribute get", by
          simp [seed_child, hiv, hidx, except_bind_ok, except_bind_error]⟩
      | str t =>
        exact ⟨"AttributeError: object has no attribute get", by
          simp [seed_child, hiv, hidx, except_bind_ok, except_bind_error]⟩
      | arr xs =>
        exact ⟨"AttributeError: object has no attribute get", by
          simp [seed_child, hiv, hidx, except_bind_ok, except_bind_error]⟩
  · exact ⟨e, by
      simp [seed_child, hiv, hdt, hdv, hj, except_bind_ok, except_bind_error]⟩

/-- C2 (amended): when a referenced object node's aggregated default
arrives as a truthy string that `json.loads` cannot decode, the seeding
loop of `_render_object_input` raises at its first child and the decoding
exception escapes `_render_object_input`; the children do not fall through
to their own fallback values.  (Seeding is skipped silently only when the
default is absent or falsy.) -/
theorem seed_children_invalid_default_raises
    (property : JObj) (s e : String) (k : String) (cv : JVal) (restProps : JFields)
    (hd : plookup property "default" = some (.str s))
    (hs : s.isEmpty = false)
    (hj : json_loads s = .error e)
    (hp : plookup property "properties" = some (.obj (.cons k cv restProps))) :
    ∃ e2, seed_children property = .error e2 := by
  have hprops : pyIdx (.obj property) "properties" = .ok (.obj (.cons k cv restProps)) := by
    simp [pyIdx, hp]
  cases cv with
  | obj co =>
    obtain ⟨e2, hc⟩ := seed_child_invalid_default property s e k co hd hs hj
    exact ⟨e2, by
      simp [seed_children, hprops, seedEach, hc, except_bind_ok, except_bind_error]⟩
  | null =>
    exact ⟨"AttributeError: object has no attribute get", by
      simp [seed_children, hprops, seedEach, except_bind_ok, except_bind_error]⟩
  | bool b =>
    exact ⟨"AttributeError: object has no attribute get", by
      simp [seed_children, hprops, seedEach, except_bind_ok, except_bind_error]⟩
  | num n =>
    exact ⟨"AttributeError: object has no attribute get", by
      simp [seed_children, hprops, seedEach, except_bind_ok, except_bind_error]⟩
  | str t =>
    exact ⟨"AttributeError: object has no attribute get", by
      simp [seed_children, hprops, seedEach, except_bind_ok, except_bind_error]⟩
  | arr xs =>
    exact ⟨"AttributeError: object has no attribute get", by
      simp [seed_children, hprops, seedEach, except_bind_ok, except_bind_error]⟩

/-- Witness for the amended C2: the undecodable default `"[1,"` (a
truncated document) makes the seeding of a one-child object raise, and the
error escapes. -/
theorem seed_children_invalid_default_raises_witness :
    json_loads "[1," = .error "Expecting value"
    ∧ ∃ e2, seed_children (JFields.ofList [("default", .str "[1,"),
        ("properties", .obj (JFields.ofList [("x", .obj .nil)]))]) = .error e2 :=
  ⟨rfl, seed_children_invalid_default_raises
    (JFields.ofList [("default", .str "[1,"),
      ("properties", .obj (JFields.ofList [("x", .obj .nil)]))])
    "[1," "Expecting value" "x" (.obj .nil) .nil rfl rfl rfl rfl⟩

/-! ## Claim C1 -/

theorem find_first_match_eq (pred : JVal → Except String Bool) :
    ∀ (items : List JVal) (i : Nat), i < items.length →
    (∀ j, j < i → pred (items.getD j .null) = .ok false) →
    pred (items.getD i .null) = .ok true →
    find_first_match pred items = .ok i
  | [], i, hlen, _, _ => by simp at hlen
  | x :: xs, 0, _, _, hmatch => by
    simp only [List.getD_cons_zero] at hmatch
    simp [find_first_match, hmatch, except_bind_ok, except_pure_eq_ok]
  | x :: xs, n + 1, hlen, hbefore, hmatch => by
    have hx : pred x = .ok false := by
      have := hbefore 0 (Nat.succ_pos n)
      simpa using this
    have hrec : find_first_match pred xs = .ok n := by
      apply find_first_match_eq pred xs n
      · simpa using hlen
      · intro j hj
        have := hbefore (j + 1) (Nat.succ_lt_succ hj)
        simpa using this
      · simpa using hmatch
    simp [find_first_match, hx, hrec, except_bind_ok, except_pure_eq_ok]

theorem union_branch_index_disc_eval
    (property : JObj) (items : List JVal) (iv disc target : JVal) (dp : String) (i : Nat)
    (hiv : plookup property "init_value" = some iv) (hivt : iv.isTruthy = true)
    (hdisc : plookup property "discriminator" = some disc) (hdt : disc.isTruthy = true)
    (hdp : pyIdx disc "propertyName" = .ok (.str dp))
    (htarget : pyIdx iv dp = .ok target)
    (hlen : i < items.length)
    (hbefore : ∀ j, j < i → discEnumMatch dp target (items.getD j .null) = .ok false)
    (hmatch : discEnumMatch dp target (items.getD i .null) = .ok true) :
    union_branch_index property items = .ok (some i) := by
  have hcond : (optTruthy (plookup property "init_value")
      && optTruthy (plookup property "discriminator")) = true := by
    simp [hiv, hdisc, optTruthy, hivt, hdt]
  have hfind : find_first_match (discEnumMatch dp target) items = .ok i :=
    find_first_match_eq _ items i hlen hbefore hmatch
  have hpd : pyIdx (.obj property) "discriminator" = .ok disc := by simp [pyIdx, hdisc]
  have hpi : pyIdx (.obj property) "init_value" = .ok iv := by simp [pyIdx, hiv]
  simp [union_branch_index, hcond, hpd, hpi, hdp, htarget, hfind,
    except_bind_ok, except_pure_eq_ok]

theorem get_union_references_setKey_instance_class
    (property references : JObj) (icv : JVal) :
    get_union_references (setKey property "instance_class" icv) references
      = get_union_references property references := by
  unfold get_union_references
  rw [plookup_setKey_of_ne _ _ _ _ (by decide), plookup_setKey_of_ne _ _ _ _ (by decide)]

/-- C1: for a union node carrying a truthy prior instance value and a
discriminator with property name `dp`, `_render_union_property` selects the
candidate branch at the first index whose resolved reference satisfies
`properties[dp]["enum"] == [init_value[dp]]`; and with both a discriminator
and an `instance_class` hint present, the discriminator alone decides — the
result is unchanged under any rewrite of the node's `instance_class`
entry, so the title match is never consulted. -/
theorem union_branch_discriminator_selects_first_match
    (property references : JObj) (items : List JVal)
    (iv disc target : JVal) (dp : String) (i : Nat)
    (hrefs : get_union_references property references = .ok items)
    (hiv : plookup property "init_value" = some iv) (hivt : iv.isTruthy = true)
    (hdisc : plookup property "discriminator" = some disc) (hdt : disc.isTruthy = true)
    (hdp : pyIdx disc "propertyName" = .ok (.str dp))
    (htarget : pyIdx iv dp = .ok target)
    (hlen : i < items.length)
    (hbefore : ∀ j, j < i → discEnumMatch dp target (items.getD j .null) = .ok false)
    (hmatch : discEnumMatch dp target (items.getD i .null) = .ok true) :
    ((get_union_references property references).bind
        (fun its => union_branch_index property its) = .ok (some i))
    ∧ ∀ icv,
      (get_union_references (setKey property "instance_class" icv) references).bind
          (fun its => union_branch_index (setKey property "instance_class" icv) its)
        = .ok (some i) := by
  have hmain := union_branch_index_disc_eval property items iv disc target dp i
    hiv hivt hdisc hdt hdp htarget hlen hbefore hmatch
  constructor
  · rw [hrefs]
    simpa using hmain
  · intro icv
    rw [get_union_references_setKey_instance_class, hrefs]
    have hmain2 := union_branch_index_disc_eval (setKey property "instance_class" icv)
      items iv disc target dp i
      (by rw [plookup_setKey_of_ne _ _ _ _ (by decide)]; exact hiv) hivt
      (by rw [plookup_setKey_of_ne _ _ _ _ (by decide)]; exact hdisc) hdt
      hdp htarget hlen hbefore hmatch
    simpa using hmain2

/-- Witness for C1: a two-branch union (Dog, Cat) with discriminator `kind`
and instance value `{"kind": "cat"}` resolves to index 1 (the Cat branch),
and still does so when the `instance_class` hint is rewritten to point at
Dog — the discriminator alone decides. -/
theorem union_branch_discriminator_selects_first_match_witness :
    ((get_union_references (JFields.ofList
        [("oneOf", .arr (.cons (.obj (JFields.ofList [("$ref", .str "#/$defs/Dog")]))
          (.cons (.obj (JFields.ofList [("$ref", .str "#/$defs/Cat")])) .nil))),
         ("init_value", .obj (JFields.ofList [("kind", .str "cat")])),
         ("discriminator", .obj (JFields.ofList [("propertyName", .str "kind")])),
         ("instance_class", .str "Cat")])
        (JFields.ofList
          [("Dog", .obj (JFields.ofList [("title", .str "Dog"),
            ("properties", .obj (JFields.ofList [("kind",
              .obj (JFields.ofList [("enum", .arr (.cons (.str "dog") .nil))]))]))])),
           ("Cat", .obj (JFields.ofList [("title", .str "Cat"),
            ("properties", .obj (JFields.ofList [("kind",
              .obj (JFields.ofList [("enum", .arr (.cons (.str "cat") .nil))]))]))]))])).bind
      (fun its => union_branch_index (JFields.ofList
        [("oneOf", .arr (.cons (.obj (JFields.ofList [("$ref", .str "#/$defs/Dog")]))
          (.cons (.obj (JFields.ofList [("$ref", .str "#/$defs/Cat")])) .nil))),
         ("init_value", .obj (JFields.ofList [("kind", .str "cat")])),
         ("discriminator", .obj (JFields.ofList [("propertyName", .str "kind")])),
         ("instance_class", .str "Cat")]) its) = .ok (some 1))
    ∧ ((get_union_references (setKey (JFields.ofList
        [("oneOf", .arr (.cons (.obj (JFields.ofList [("$ref", .str "#/$defs/Dog")]))
          (.cons (.obj (JFields.ofList [("$ref", .str "#/$defs/Cat")])) .nil))),
         ("init_value", .obj (JFields.ofList [("kind", .str "cat")])),
         ("discriminator", .obj (JFields.ofList [("propertyName", .str "kind")])),
         ("instance_class", .str "Cat")]) "instance_class" (.str "Dog"))
        (JFields.ofList
          [("Dog", .obj (JFields.ofList [("title", .str "Dog"),
            ("properties", .obj (JFields.ofList [("kind",
              .obj (JFields.ofList [("enum", .arr (.cons (.str "dog") .nil))]))]))])),
           ("Cat", .obj (JFields.ofList [("title", .str "Cat"),
            ("properties", .obj (JFields.ofList [("kind",
              .obj (JFields.ofList [("enum", .arr (.cons (.str "cat") .nil))]))]))]))])).bind
      (fun its => union_branch_index (setKey (JFields.ofList
        [("oneOf", .arr (.cons (.obj (JFields.ofList [("$ref", .str "#/$defs/Dog")]))
          (.cons (.obj (JFields.ofList [("$ref", .str "#/$defs/Cat")])) .nil))),
         ("init_value", .obj (JFields.ofList [("kind", .str "cat")])),
         ("discriminator", .obj (JFields.ofList [("propertyName", .str "kind")])),
         ("instance_class", .str "Cat")]) "instance_class" (.str "Dog")) its)
      = .ok (some 1)) := by
  have h := union_branch_discriminator_selects_first_match
    (JFields.ofList
      [("oneOf", .arr (.cons (.obj (JFields.ofList [("$ref", .str "#/$defs/Dog")]))
        (.cons (.obj (JFields.ofList [("$ref", .str "#/$defs/Cat")])) .nil))),
       ("init_value", .obj (JFields.ofList [("kind", .str "cat")])),
       ("discriminator", .obj (JFields.ofList [("propertyName", .str "kind")])),
       ("instance_class", .str "Cat")])
    (JFields.ofList
      [("Dog", .obj (JFields.ofList [("title", .str "Dog"),
        ("properties", .obj (JFields.ofList [("kind",
          .obj (JFields.ofList [("enum", .arr (.cons (.str "dog") .nil))]))]))])),
       ("Cat", .obj (JFields.ofList [("title", .str "Cat"),
        ("properties", .obj (JFields.ofList [("kind",
          .obj (JFields.ofList [("enum", .arr (.cons (.str "cat") .nil))]))]))]))])
    [.obj (JFields.ofList [("title", .str "Dog"),
        ("properties", .obj (JFields.ofList [("kind",
          .obj (JFields.ofList [("enum", .arr (.cons (.str "dog") .nil))]))]))]),
     .obj (JFields.ofList [("title", .str "Cat"),
        ("properties", .obj (JFields.ofList [("kind",
          .obj (JFields.ofList [("enum", .arr (.cons (.str "cat") .nil))]))]))])]
    (.obj (JFields.ofList [("kind", .str "cat")]))
    (.obj (JFields.ofList [("propertyName", .str "kind")]))
    (.str "cat") "kind" 1
    rfl rfl rfl rfl rfl rfl rfl (by decide)
    (by
      intro j hj
      have hj0 : j = 0 := Nat.lt_one_iff.mp hj
      subst hj0
      rfl)
    rfl
  exact ⟨h.1, h.2 (.str "Dog")⟩

/-! ## Claim C5 -/

/-- Counterexample for C5 as stated: a node with `type: "object"`, an
`additionalProperties` entry and an `allOf` reference to an object
definition with fixed properties satisfies BOTH `is_single_dict_property`
and `is_single_object` — the two classifications are not mutually exclusive
at the predicate level. -/
theorem dict_and_object_predicates_not_exclusive :
    is_single_dict_property (JFields.ofList
        [("type", .str "object"), ("additionalProperties", .obj .nil),
         ("allOf", .arr (.cons (.obj (JFields.ofList [("$ref", .str "#/$defs/Foo")])) .nil))])
      = true
    ∧ is_single_object (JFields.ofList
        [("type", .str "object"), ("additionalProperties", .obj .nil),
         ("allOf", .arr (.cons (.obj (JFields.ofList [("$ref", .str "#/$defs/Foo")])) .nil))])
        (JFields.ofList [("Foo", .obj (JFields.ofList
          [("type", .str "object"),
           ("properties", .obj (JFields.ofList [("x", .obj .nil)]))]))])
      = true := ⟨rfl, rfl⟩

theorem normalize_empty_items_preserves (p p2 : JObj) (k : String) (hk : k ≠ "items")
    (h : normalize_empty_items p = .ok p2) : plookup p2 k = plookup p k := by
  unfold normalize_empty_items at h
  split at h
  · split at h
    · split at h
      · cases h
        exact plookup_setKey_of_ne _ _ _ _ hk
      · cases h
    · cases h
      rfl
  · cases h
    rfl

/-- C5 (amended): `is_single_dict_property` and `is_single_object` are not
mutually exclusive at the predicate level (see the counterexample);
exclusivity of the resulting classification comes from the dispatch order
of `_render_property`, which tests the dict shape first — a node satisfying
`is_single_dict_property` is never classified `singleObject`. -/
theorem classify_dict_never_single_object
    (p refs : JObj) (h : is_single_dict_property p = true) :
    ∀ p2, classify_property refs p ≠ .ok (.singleObject, p2) := by
  have h' := h
  simp only [is_single_dict_property, Bool.and_eq_true, beq_iff_eq] at h'
  obtain ⟨ht, ha⟩ := h'
  have hflat : flatten_any_of p = .ok p := by
    simp [flatten_any_of, ht, pyIsNone, except_pure_eq_ok]
  intro p2 hcontra
  simp only [classify_property, hflat, except_bind_ok] at hcontra
  cases hn : normalize_empty_items p with
  | error e =>
    rw [hn] at hcontra
    cases hcontra
  | ok pn =>
    rw [hn] at hcontra
    simp only [except_bind_ok] at hcontra
    have hd2 : is_single_dict_property pn = true := by
      simp [is_single_dict_property,
        normalize_empty_items_preserves p pn "type" (by decide) hn,
        normalize_empty_items_preserves p pn "additionalProperties" (by decide) hn,
        ht, ha]
    simp only [except_pure_eq_ok] at hcontra
    simp only [hd2, if_true] at hcontra
    split at hcontra
    · cases hcontra
    · split at hcontra
      · cases hcontra
      · split at hcontra
        · cases hcontra
        · split at hcontra
          · cases hcontra
          · split at hcontra
            · cases hcontra
            · split at hcontra
              · cases hcontra
              · split at hcontra
                · cases hcontra
                · cases hcontra

/-- Witness for the amended C5: for the doubly-classified node of the
counterexample the dispatcher yields the dict shape, and (by the theorem)
never the single-object shape. -/
theorem classify_dict_never_single_object_witness :
    classify_property
        (JFields.ofList [("Foo", .obj (JFields.ofList
          [("type", .str "object"),
           ("properties", .obj (JFields.ofList [("x", .obj .nil)]))]))])
        (JFields.ofList
          [("type", .str "object"), ("additionalProperties", .obj .nil),
           ("allOf", .arr (.cons (.obj (JFields.ofList [("$ref", .str "#/$defs/Foo")])) .nil))])
      ≠ .ok (.singleObject, JFields.ofList
          [("type", .str "object"), ("additionalProperties", .obj .nil),
           ("allOf", .arr (.cons (.obj (JFields.ofList [("$ref", .str "#/$defs/Foo")])) .nil))]) :=
  classify_dict_never_single_object
    (JFields.ofList
      [("type", .str "object"), ("additionalProperties", .obj .nil),
       ("allOf", .arr (.cons (.obj (JFields.ofList [("$ref", .str "#/$defs/Foo")])) .nil))])
    (JFields.ofList [("Foo", .obj (JFields.ofList
      [("type", .str "object"),
       ("properties", .obj (JFields.ofList [("x", .obj .nil)]))]))])
    rfl
    (JFields.ofList
      [("type", .str "object"), ("additionalProperties", .obj .nil),
       ("allOf", .arr (.cons (.obj (JFields.ofList [("$ref", .str "#/$defs/Foo")])) .nil))])
